import Mathlib

/-!
Verification of the academic-records service in
`UAS-AKSO-Docker/acad-service/main.py`.

The service is shallowly embedded: Python floats are modelled as exact
rationals (ℚ), database results are passed explicitly as values, raised
exceptions are modelled with `Except`, and the FastAPI validation plus the
`try`/`except HTTPException`/`except Exception` structure of the endpoint
is reproduced as explicit control flow.
-/

namespace Acad

/-- Uppercasing of a string, modelling Python `str.upper()` on the ASCII
strings relevant to the grade table. -/
def pyUpper (s : String) : String := ⟨s.data.map Char.toUpper⟩

/-- The fixed grade table of `convert_grade_to_weight` in `main.py`:
`{'A': 4.0, 'B+': 3.5, 'B': 3.0, 'B-': 2.75, 'C+': 2.5, 'C': 2.0, 'D': 1.0, 'E': 0.0}`. -/
def grade_map : List (String × ℚ) :=
  [("A", 4.0), ("B+", 3.5), ("B", 3.0), ("B-", 2.75),
   ("C+", 2.5), ("C", 2.0), ("D", 1.0), ("E", 0.0)]

/-- `convert_grade_to_weight(nilai_huruf)`: look up the uppercased grade in
`grade_map`, defaulting to `0.0` (Python `dict.get(key, 0.0)`). -/
def convert_grade_to_weight (nilai_huruf : String) : ℚ :=
  match grade_map.find? (fun p => p.1 == pyUpper nilai_huruf) with
  | some p => p.2
  | none => 0.0

/-- A row of the joined `mahasiswa`/`krs`/`mata_kuliah` query in
`calculate_ips`: `(nim, nama, jurusan, nilai, sks)`.  The grade column
`nilai` is nullable in the schema, hence `Option String`; `sks` is an
integer column. -/
structure KrsRow where
  nim : String
  nama : String
  jurusan : String
  nilai : Option String
  sks : ℤ
deriving DecidableEq, Repr

/-- A row of the `mahasiswa` table: `(nim, nama, jurusan, angkatan)`. -/
structure MahasiswaRow where
  nim : String
  nama : String
  jurusan : String
  angkatan : ℤ
deriving DecidableEq, Repr

/-- Outcome of a database query: either the fetched rows or a driver
exception carrying its message. -/
inductive DbResult (α : Type) where
  | ok : α → DbResult α
  | err : String → DbResult α
deriving DecidableEq, Repr

/-- An exception raised inside a handler body: either a FastAPI
`HTTPException(status_code, detail)` or any other Python exception
(e.g. a driver error or an `AttributeError`) carrying `str(e)`. -/
inductive PyExc where
  | httpException : ℕ → String → PyExc
  | pyError : String → PyExc
deriving DecidableEq, Repr

/-- The message of the `AttributeError` raised by `None.upper()` when a
row carries a NULL grade. -/
def attrErrMsg : String := "AttributeError: NoneType has no attribute upper"

/-- An HTTP response: a JSON success payload or an error status with
detail. -/
inductive HttpResponse (α : Type) where
  | ok : α → HttpResponse α
  | httpError : ℕ → String → HttpResponse α
deriving DecidableEq, Repr

/-- The `mahasiswa` sub-object of the IPS response, taken from the first
fetched row. -/
structure MahasiswaInfo where
  nim : String
  nama : String
  jurusan : String
deriving DecidableEq, Repr

/-- The success payload of `calculate_ips`:
`{mahasiswa, total_sks_diambil, total_bobot_sks, ips}`. -/
structure IpsOk where
  mahasiswa : MahasiswaInfo
  total_sks_diambil : ℤ
  total_bobot_sks : ℚ
  ips : ℚ
deriving DecidableEq, Repr

/-- Round-half-to-even on a rational, the tie-breaking rule of Python
`round`. -/
def roundHalfEven (q : ℚ) : ℤ :=
  let f := ⌊q⌋
  let r := q - f
  if r < 1/2 then f
  else if 1/2 < r then f + 1
  else if f % 2 = 0 then f else f + 1

/-- Python `round(x, 2)` on the exact rational value. -/
def pyRound2 (q : ℚ) : ℚ := (roundHalfEven (q * 100) : ℚ) / 100

/-- The accumulation loop of `calculate_ips`, started at
`total_bobot_sks = 0.0`, `total_sks = 0`: for each row convert the grade,
add `bobot_nilai * sks` to `total_bobot_sks` and `sks` to `total_sks`.
A NULL grade makes `convert_grade_to_weight(None)` call `None.upper()`,
raising `AttributeError`. -/
def ipsLoop : List KrsRow → ℚ → ℤ → Except PyExc (ℚ × ℤ)
  | [], b, s => .ok (b, s)
  | r :: rest, b, s =>
    match r.nilai with
    | none => .error (.pyError attrErrMsg)
    | some g => ipsLoop rest (b + convert_grade_to_weight g * (r.sks : ℚ)) (s + r.sks)

/-- The body of the `try:` block of `calculate_ips` for a given query
outcome: a driver error is a raised Python exception; zero rows raise
`HTTPException(404, ...)`; otherwise run the loop, guard the division by
zero, take the student info from the first row and round the two output
values to 2 decimals. -/
def ips_body (nim : String) (dbres : DbResult (List KrsRow)) : Except PyExc IpsOk :=
  match dbres with
  | .err e => .error (.pyError e)
  | .ok [] => .error (.httpException 404 ("Data KRS tidak ditemukan untuk NIM " ++ nim))
  | .ok (r0 :: rest) =>
    match ipsLoop (r0 :: rest) 0 0 with
    | .error e => .error e
    | .ok (total_bobot_sks, total_sks) =>
      let ips : ℚ := if total_sks = 0 then 0 else total_bobot_sks / (total_sks : ℚ)
      .ok { mahasiswa := { nim := r0.nim, nama := r0.nama, jurusan := r0.jurusan },
            total_sks_diambil := total_sks,
            total_bobot_sks := pyRound2 total_bobot_sks,
            ips := pyRound2 ips }

/-- The exception handlers at the end of `calculate_ips`:
`except HTTPException: raise` re-raises an `HTTPException` unchanged
(so its status code, e.g. 404, is kept), and `except Exception as e`
converts any other exception to a 500 with the prefixed message. -/
def runHandler {α : Type} (body : Except PyExc α) : HttpResponse α :=
  match body with
  | .ok a => .ok a
  | .error (.httpException c d) => .httpError c d
  | .error (.pyError m) => .httpError 500 ("Terjadi kesalahan server: " ++ m)

/-- `calculate_ips` applied to an already-fetched query outcome: the
`try:` body wrapped in the exception handlers. -/
def calculate_ips (nim : String) (dbres : DbResult (List KrsRow)) : HttpResponse IpsOk :=
  runHandler (ips_body nim dbres)

/-- The detail FastAPI reports for a query-parameter string shorter than
`min_length`. -/
def minLengthMsg : String := "String should have at least 5 characters"

/-- The full `/api/acad/ips` endpoint: FastAPI validates
`Query(..., min_length=5)` before the handler runs, rejecting short
identifiers with a 422 validation error; only then is the database
queried (`db` maps the NIM parameter to the query outcome). -/
def ips_endpoint (nim : String) (db : String → DbResult (List KrsRow)) : HttpResponse IpsOk :=
  if nim.length < 5 then .httpError 422 minLengthMsg
  else calculate_ips nim (db nim)

/-- `get_mahasiswas`: on success return
`[{"nim": row[0], "nama": row[1], "jurusan": row[2], "angkatan": row[3]} for row in rows]`,
on any exception raise `HTTPException(500, str(e))`. -/
def get_mahasiswas (dbres : DbResult (List MahasiswaRow)) : HttpResponse (List MahasiswaRow) :=
  match dbres with
  | .ok rows =>
    .ok (rows.map (fun row =>
      { nim := row.nim, nama := row.nama, jurusan := row.jurusan, angkatan := row.angkatan }))
  | .err e => .httpError 500 e

/-- Specification-side exact weighted sum over a list of rows, reading a
missing grade as the empty string (only used for rows whose grades are all
present). -/
def sumBobot (l : List KrsRow) : ℚ :=
  (l.map (fun r => convert_grade_to_weight (r.nilai.getD "") * (r.sks : ℚ))).sum

/-- Specification-side exact total of credit hours over a list of rows. -/
def sumSks (l : List KrsRow) : ℤ := (l.map (fun r => r.sks)).sum

/-- Specification-side unrounded GPA of a list of rows: the weighted sum
divided by the total credits, or 0 when the total credits are 0. -/
def rawIps (l : List KrsRow) : ℚ :=
  if sumSks l = 0 then 0 else sumBobot l / (sumSks l : ℚ)

/-- The GPA derived from a pair of loop totals `(total_bobot_sks, total_sks)`
as `calculate_ips` does it: 0 when the credits are 0, else the quotient. -/
def ipsOfTotals (p : ℚ × ℤ) : ℚ := if p.2 = 0 then 0 else p.1 / (p.2 : ℚ)

/-- The enrollment rows of the spec's example scenario 1 for student
`12345`: grades (A,3), (B+,4), (C,2). -/
def rowsC1 : List KrsRow :=
  [⟨"12345", "Budi", "Informatika", some "A", 3⟩,
   ⟨"12345", "Budi", "Informatika", some "B+", 4⟩,
   ⟨"12345", "Budi", "Informatika", some "C", 2⟩]

/-- Unfolding of `sumBobot` on a cons cell. -/
lemma sumBobot_cons (r : KrsRow) (l : List KrsRow) :
    sumBobot (r :: l) = convert_grade_to_weight (r.nilai.getD "") * (r.sks : ℚ) + sumBobot l := by
  simp [sumBobot]

/-- Unfolding of `sumSks` on a cons cell. -/
lemma sumSks_cons (r : KrsRow) (l : List KrsRow) :
    sumSks (r :: l) = r.sks + sumSks l := by
  simp [sumSks]

/-- When every row has a (non-NULL) grade, the accumulation loop succeeds
and returns exactly the two exact sums added to its accumulators. -/
lemma ipsLoop_all_some :
    ∀ (l : List KrsRow), (∀ r ∈ l, (r.nilai).isSome) → ∀ (b : ℚ) (s : ℤ),
      ipsLoop l b s = .ok (b + sumBobot l, s + sumSks l) := by
  intro l
  induction l with
  | nil => intro _ b s; simp [ipsLoop, sumBobot, sumSks]
  | cons r rest ih =>
    intro h b s
    have hr : (r.nilai).isSome := h r (List.mem_cons_self r rest)
    obtain ⟨g, hg⟩ := Option.isSome_iff_exists.mp hr
    have hrest : ∀ x ∈ rest, (x.nilai).isSome := fun x hx => h x (List.mem_cons_of_mem r hx)
    simp only [ipsLoop, hg]
    rw [ih hrest]
    rw [sumBobot_cons, sumSks_cons]
    congr 2
    · rw [hg]; simp [Option.getD]; ring
    · ring

/-- When some row has a NULL grade, the accumulation loop raises the
`AttributeError` of `None.upper()`, whatever the accumulators hold. -/
lemma ipsLoop_has_none :
    ∀ (l : List KrsRow), (∃ r ∈ l, r.nilai = none) → ∀ (b : ℚ) (s : ℤ),
      ipsLoop l b s = .error (.pyError attrErrMsg) := by
  intro l
  induction l with
  | nil => rintro ⟨r, hr, _⟩; exact absurd hr (List.not_mem_nil r)
  | cons r rest ih =>
    rintro ⟨x, hx, hnone⟩ b s
    rcases List.mem_cons.mp hx with h | h
    · subst h; simp [ipsLoop, hnone]
    · cases hg : r.nilai with
      | none => simp [ipsLoop, hg]
      | some g =>
        simp only [ipsLoop, hg]
        exact ih ⟨x, h, hnone⟩ _ _

/-- On a non-empty row set whose grades are all present, `calculate_ips`
returns the success payload built from the first row's student info, the
exact credit total, and the two rounded outputs. -/
lemma calculate_ips_ok_spec (nim : String) (r0 : KrsRow) (rest : List KrsRow)
    (hall : ∀ r ∈ r0 :: rest, (r.nilai).isSome) :
    calculate_ips nim (DbResult.ok (r0 :: rest)) =
      HttpResponse.ok
        { mahasiswa := { nim := r0.nim, nama := r0.nama, jurusan := r0.jurusan },
          total_sks_diambil := sumSks (r0 :: rest),
          total_bobot_sks := pyRound2 (sumBobot (r0 :: rest)),
          ips := pyRound2 (rawIps (r0 :: rest)) } := by
  simp only [calculate_ips, ips_body]
  rw [ipsLoop_all_some (r0 :: rest) hall 0 0]
  simp only [zero_add, runHandler, rawIps]

/-- Every value `convert_grade_to_weight` can return is one of the eight
table weights. -/
lemma convert_mem_values (s : String) :
    convert_grade_to_weight s ∈ ([4.0, 3.5, 3.0, 2.75, 2.5, 2.0, 1.0, 0.0] : List ℚ) := by
  unfold convert_grade_to_weight
  cases hfind : grade_map.find? (fun p => p.1 == pyUpper s) with
  | none => simp
  | some p =>
    have hp : p ∈ grade_map := List.mem_of_find?_eq_some hfind
    simp only [grade_map, List.mem_cons, List.not_mem_nil, or_false] at hp
    rcases hp with h | h | h | h | h | h | h | h <;> subst h <;> simp

/-- Every grade weight is non-negative. -/
lemma convert_nonneg (s : String) : 0 ≤ convert_grade_to_weight s := by
  have h := convert_mem_values s
  simp only [List.mem_cons, List.not_mem_nil, or_false] at h
  rcases h with h | h | h | h | h | h | h | h <;> rw [h] <;> norm_num

/-- Every grade weight is at most 4. -/
lemma convert_le_four (s : String) : convert_grade_to_weight s ≤ 4 := by
  have h := convert_mem_values s
  simp only [List.mem_cons, List.not_mem_nil, or_false] at h
  rcases h with h | h | h | h | h | h | h | h <;> rw [h] <;> norm_num

/-- A grade string whose uppercased form is not a key of the table is
weighted 0. -/
lemma convert_eq_zero_of_not_mem (s : String) (h : pyUpper s ∉ grade_map.map Prod.fst) :
    convert_grade_to_weight s = 0 := by
  unfold convert_grade_to_weight
  cases hfind : grade_map.find? (fun p => p.1 == pyUpper s) with
  | none => norm_num
  | some p =>
    exfalso
    apply h
    have hp : p ∈ grade_map := List.mem_of_find?_eq_some hfind
    have hpred := List.find?_some hfind
    have hfst : p.1 = pyUpper s := by simpa using hpred
    rw [← hfst]
    exact List.mem_map_of_mem Prod.fst hp

/-- With non-negative per-row credits the weighted sum is non-negative. -/
lemma sumBobot_nonneg (l : List KrsRow) (h : ∀ r ∈ l, 0 ≤ r.sks) : 0 ≤ sumBobot l := by
  induction l with
  | nil => simp [sumBobot]
  | cons r rest ih =>
    rw [sumBobot_cons]
    have h0 : (0 : ℚ) ≤ (r.sks : ℚ) := by
      exact_mod_cast h r (List.mem_cons_self r rest)
    have h1 := mul_nonneg (convert_nonneg (r.nilai.getD "")) h0
    have h2 := ih (fun x hx => h x (List.mem_cons_of_mem r hx))
    linarith

/-- With non-negative per-row credits the weighted sum is at most four
times the credit total. -/
lemma sumBobot_le (l : List KrsRow) (h : ∀ r ∈ l, 0 ≤ r.sks) :
    sumBobot l ≤ 4 * (sumSks l : ℚ) := by
  induction l with
  | nil => simp [sumBobot, sumSks]
  | cons r rest ih =>
    rw [sumBobot_cons, sumSks_cons]
    have h0 : (0 : ℚ) ≤ (r.sks : ℚ) := by
      exact_mod_cast h r (List.mem_cons_self r rest)
    have h1 : convert_grade_to_weight (r.nilai.getD "") * (r.sks : ℚ) ≤ 4 * (r.sks : ℚ) :=
      mul_le_mul_of_nonneg_right (convert_le_four _) h0
    have h2 := ih (fun x hx => h x (List.mem_cons_of_mem r hx))
    push_cast
    linarith

/-- With non-negative per-row credits the credit total is non-negative. -/
lemma sumSks_nonneg (l : List KrsRow) (h : ∀ r ∈ l, 0 ≤ r.sks) : 0 ≤ sumSks l := by
  apply List.sum_nonneg
  intro x hx
  obtain ⟨r, hr, rfl⟩ := List.mem_map.mp hx
  exact h r hr

/-- Rounding half-to-even of a non-negative rational is non-negative. -/
lemma roundHalfEven_nonneg (q : ℚ) (h : 0 ≤ q) : 0 ≤ roundHalfEven q := by
  have hf : (0 : ℤ) ≤ ⌊q⌋ := Int.floor_nonneg.mpr h
  unfold roundHalfEven
  dsimp only
  split_ifs <;> omega

/-- Rounding half-to-even never exceeds an integer upper bound of its
argument. -/
lemma roundHalfEven_le (q : ℚ) (n : ℤ) (h : q ≤ (n : ℚ)) : roundHalfEven q ≤ n := by
  have hfl : ⌊q⌋ ≤ n := by
    have := Int.floor_le_floor h
    simpa using this
  unfold roundHalfEven
  dsimp only
  split_ifs with h1 h2 h3
  · exact hfl
  all_goals {
    push_neg at h1
    have hlt : (⌊q⌋ : ℚ) < q := by linarith
    have hn : ⌊q⌋ < n := by
      have : (⌊q⌋ : ℚ) < (n : ℚ) := lt_of_lt_of_le hlt h
      exact_mod_cast this
    omega }

/-- Rounding to 2 decimals preserves non-negativity. -/
lemma pyRound2_nonneg (x : ℚ) (h : 0 ≤ x) : 0 ≤ pyRound2 x := by
  unfold pyRound2
  have h1 : (0 : ℤ) ≤ roundHalfEven (x * 100) := roundHalfEven_nonneg _ (by linarith)
  have h2 : (0 : ℚ) ≤ (roundHalfEven (x * 100) : ℚ) := by exact_mod_cast h1
  positivity

/-- Rounding to 2 decimals preserves the upper bound 4. -/
lemma pyRound2_le_four (x : ℚ) (h : x ≤ 4) : pyRound2 x ≤ 4 := by
  unfold pyRound2
  have h1 : roundHalfEven (x * 100) ≤ 400 := by
    apply roundHalfEven_le
    push_cast
    linarith
  have h2 : (roundHalfEven (x * 100) : ℚ) ≤ 400 := by exact_mod_cast h1
  linarith

/-- Rounding 0 to 2 decimals gives 0. -/
lemma pyRound2_zero : pyRound2 0 = 0 := by
  norm_num [pyRound2, roundHalfEven]

/-- C1: for a non-empty row set (all grades present), the returned GPA is
the 2-decimal rounding of the exact weighted sum divided by the exact
credit total when the latter is nonzero, and 0.0 when it is zero. -/
theorem gpa_is_weighted_average (nim : String) (r0 : KrsRow) (rest : List KrsRow)
    (hall : ∀ r ∈ r0 :: rest, (r.nilai).isSome) (resp : IpsOk)
    (hout : calculate_ips nim (DbResult.ok (r0 :: rest)) = HttpResponse.ok resp) :
    (sumSks (r0 :: rest) ≠ 0 →
        resp.ips = pyRound2 (sumBobot (r0 :: rest) / (sumSks (r0 :: rest) : ℚ))) ∧
    (sumSks (r0 :: rest) = 0 → resp.ips = 0) := by
  rw [calculate_ips_ok_spec nim r0 rest hall] at hout
  simp only [HttpResponse.ok.injEq] at hout
  subst hout
  constructor
  · intro hne
    show pyRound2 (rawIps (r0 :: rest)) = _
    rw [rawIps, if_neg hne]
  · intro h0
    show pyRound2 (rawIps (r0 :: rest)) = 0
    rw [rawIps, if_pos h0, pyRound2_zero]

/-- Witness for C1: on the spec's example rows (A,3), (B+,4), (C,2) the
credit total is 9 ≠ 0 and the returned GPA is round(30/9, 2) = 3.33. -/
theorem gpa_is_weighted_average_witness :
    sumSks rowsC1 ≠ 0 ∧
    (333 / 100 : ℚ) = pyRound2 (sumBobot rowsC1 / (sumSks rowsC1 : ℚ)) := by
  have hs : sumSks rowsC1 ≠ 0 := by decide
  have hout : calculate_ips "12345" (DbResult.ok rowsC1) =
      HttpResponse.ok ⟨⟨"12345", "Budi", "Informatika"⟩, 9, 30, 333 / 100⟩ := by
    have h1 : ipsLoop rowsC1 0 0 = .ok (0 + 4.0 * 3 + 3.5 * 4 + 2.0 * 2, 0 + 3 + 4 + 2) := rfl
    simp only [calculate_ips, ips_body, rowsC1] at *
    rw [h1]
    norm_num [runHandler, pyRound2, roundHalfEven]
  have h := gpa_is_weighted_average "12345"
      ⟨"12345", "Budi", "Informatika", some "A", 3⟩
      [⟨"12345", "Budi", "Informatika", some "B+", 4⟩,
       ⟨"12345", "Budi", "Informatika", some "C", 2⟩]
      (by decide) ⟨⟨"12345", "Budi", "Informatika"⟩, 9, 30, 333 / 100⟩ hout
  exact ⟨hs, (h.1 hs).symm ▸ rfl⟩

/-- C2 counterexample: a row with a NULL (absent) grade does not complete
with a zero-weighted success — `convert_grade_to_weight(None)` raises an
`AttributeError`, which the generic handler converts to a 500 error. -/
theorem null_grade_raises_counterexample :
    calculate_ips "12345" (DbResult.ok [⟨"12345", "Budi", "Informatika", none, 3⟩]) =
      HttpResponse.httpError 500 ("Terjadi kesalahan server: " ++ attrErrMsg) ∧
    calculate_ips "12345" (DbResult.ok [⟨"12345", "Budi", "Informatika", none, 3⟩]) ≠
      HttpResponse.ok ⟨⟨"12345", "Budi", "Informatika"⟩, 3, 0, 0⟩ := by
  have h1 : calculate_ips "12345" (DbResult.ok [⟨"12345", "Budi", "Informatika", none, 3⟩]) =
      HttpResponse.httpError 500 ("Terjadi kesalahan server: " ++ attrErrMsg) := rfl
  refine ⟨h1, fun h => ?_⟩
  rw [h1] at h
  exact HttpResponse.noConfusion h

/-- C2 as amended: a grade that is a string absent (case-normalized) from
the table is weighted 0.0; a row set whose grades are all present strings
always completes successfully; but a NULL (absent) grade aborts the
computation with a 500 server error instead of being weighted 0.0. -/
theorem unknown_grade_zero_null_raises :
    (∀ s : String, pyUpper s ∉ grade_map.map Prod.fst → convert_grade_to_weight s = 0) ∧
    (∀ (nim : String) (r0 : KrsRow) (rest : List KrsRow),
        (∀ r ∈ r0 :: rest, (r.nilai).isSome) →
        ∃ resp : IpsOk, calculate_ips nim (DbResult.ok (r0 :: rest)) = HttpResponse.ok resp) ∧
    (∀ (nim : String) (rows : List KrsRow), (∃ r ∈ rows, r.nilai = none) →
        calculate_ips nim (DbResult.ok rows) =
          HttpResponse.httpError 500 ("Terjadi kesalahan server: " ++ attrErrMsg)) := by
  refine ⟨convert_eq_zero_of_not_mem, ?_, ?_⟩
  · intro nim r0 rest hall
    exact ⟨_, calculate_ips_ok_spec nim r0 rest hall⟩
  · intro nim rows hex
    cases rows with
    | nil =>
      obtain ⟨r, hr, _⟩ := hex
      exact absurd hr (List.not_mem_nil r)
    | cons r0 rest =>
      simp only [calculate_ips, ips_body]
      rw [ipsLoop_has_none (r0 :: rest) hex 0 0]
      rfl

/-- Witness for the amended C2: the unknown string grade "X" is weighted
0, and a concrete NULL-grade row yields the 500 error. -/
theorem unknown_grade_zero_null_raises_witness :
    convert_grade_to_weight "X" = 0 ∧
    calculate_ips "11111" (DbResult.ok [⟨"11111", "Ani", "Sistem Informasi", none, 2⟩]) =
      HttpResponse.httpError 500 ("Terjadi kesalahan server: " ++ attrErrMsg) := by
  constructor
  · exact unknown_grade_zero_null_raises.1 "X" (by decide)
  · exact unknown_grade_zero_null_raises.2.2 "11111"
      [⟨"11111", "Ani", "Sistem Informasi", none, 2⟩]
      ⟨_, List.mem_cons_self _ _, rfl⟩

/-- C3: a well-formed identifier (length ≥ 5) whose query returns zero
rows yields a 404 not-found response — the internally raised
`HTTPException` passes through the generic handler unchanged instead of
being reclassified as a 500. -/
theorem empty_enrollment_404 (nim : String) (db : String → DbResult (List KrsRow))
    (hlen : 5 ≤ nim.length) (hdb : db nim = DbResult.ok []) :
    ips_endpoint nim db =
      HttpResponse.httpError 404 ("Data KRS tidak ditemukan untuk NIM " ++ nim) := by
  unfold ips_endpoint
  rw [if_neg (by omega), hdb]
  rfl

/-- Witness for C3: student "99999" with no enrollment rows gets the 404
response. -/
theorem empty_enrollment_404_witness :
    ips_endpoint "99999" (fun _ => DbResult.ok []) =
      HttpResponse.httpError 404 ("Data KRS tidak ditemukan untuk NIM " ++ "99999") :=
  empty_enrollment_404 "99999" (fun _ => DbResult.ok []) (by decide) rfl

/-- C4: the weight lookup matches the fixed table for every known letter
grade in upper or lower case, and any grade string absent (case-normalized)
from the table maps to 0.0. -/
theorem grade_table_case_insensitive_total :
    (∀ s : String, pyUpper s ∉ grade_map.map Prod.fst → convert_grade_to_weight s = 0.0) ∧
    convert_grade_to_weight "A" = 4.0 ∧ convert_grade_to_weight "a" = 4.0 ∧
    convert_grade_to_weight "B+" = 3.5 ∧ convert_grade_to_weight "b+" = 3.5 ∧
    convert_grade_to_weight "B" = 3.0 ∧ convert_grade_to_weight "b" = 3.0 ∧
    convert_grade_to_weight "B-" = 2.75 ∧ convert_grade_to_weight "b-" = 2.75 ∧
    convert_grade_to_weight "C+" = 2.5 ∧ convert_grade_to_weight "c+" = 2.5 ∧
    convert_grade_to_weight "C" = 2.0 ∧ convert_grade_to_weight "c" = 2.0 ∧
    convert_grade_to_weight "D" = 1.0 ∧ convert_grade_to_weight "d" = 1.0 ∧
    convert_grade_to_weight "E" = 0.0 ∧ convert_grade_to_weight "e" = 0.0 := by
  refine ⟨?_, rfl, rfl, rfl, rfl, rfl, rfl, rfl, rfl, rfl, rfl, rfl, rfl, rfl, rfl, rfl, rfl⟩
  intro s h
  have hz := convert_eq_zero_of_not_mem s h
  norm_num [hz]

/-- Witness for C4: the grade string "F" is absent from the table and is
weighted 0.0. -/
theorem grade_table_case_insensitive_total_witness :
    pyUpper "F" ∉ grade_map.map Prod.fst ∧ convert_grade_to_weight "F" = 0.0 :=
  ⟨by decide, grade_table_case_insensitive_total.1 "F" (by decide)⟩

/-- C5: the accumulation is order-independent — permuting the rows leaves
both the pair of totals and the GPA derived from them unchanged (also in
the NULL-grade error case). -/
theorem gpa_order_independent (l1 l2 : List KrsRow) (hperm : l1.Perm l2) :
    ipsLoop l1 0 0 = ipsLoop l2 0 0 ∧
    Except.map ipsOfTotals (ipsLoop l1 0 0) = Except.map ipsOfTotals (ipsLoop l2 0 0) := by
  have key : ipsLoop l1 0 0 = ipsLoop l2 0 0 := by
    by_cases hall : ∀ r ∈ l1, (r.nilai).isSome
    · have hall2 : ∀ r ∈ l2, (r.nilai).isSome := fun r hr => hall r (hperm.mem_iff.mpr hr)
      rw [ipsLoop_all_some l1 hall, ipsLoop_all_some l2 hall2]
      have hB : sumBobot l1 = sumBobot l2 := by
        unfold sumBobot
        exact (hperm.map _).sum_eq
      have hS : sumSks l1 = sumSks l2 := by
        unfold sumSks
        exact (hperm.map _).sum_eq
      rw [hB, hS]
    · push_neg at hall
      obtain ⟨r, hr, hns⟩ := hall
      have hnone : r.nilai = none := Option.not_isSome_iff_eq_none.mp hns
      rw [ipsLoop_has_none l1 ⟨r, hr, hnone⟩, ipsLoop_has_none l2 ⟨r, hperm.mem_iff.mp hr, hnone⟩]
  exact ⟨key, by rw [key]⟩

/-- Witness for C5: swapping the two rows (A,3), (C,2) leaves the loop
totals unchanged. -/
theorem gpa_order_independent_witness :
    ipsLoop [⟨"44444", "Eka", "Fisika", some "A", 3⟩, ⟨"44444", "Eka", "Fisika", some "C", 2⟩] 0 0 =
      ipsLoop [⟨"44444", "Eka", "Fisika", some "C", 2⟩, ⟨"44444", "Eka", "Fisika", some "A", 3⟩] 0 0 :=
  (gpa_order_independent
    [⟨"44444", "Eka", "Fisika", some "A", 3⟩, ⟨"44444", "Eka", "Fisika", some "C", 2⟩]
    [⟨"44444", "Eka", "Fisika", some "C", 2⟩, ⟨"44444", "Eka", "Fisika", some "A", 3⟩]
    (by decide)).1

/-- C6: rounding happens only at output — the returned `total_bobot_sks`
and `ips` are exactly `pyRound2` of the unrounded exact sums and of the
unrounded quotient, respectively, and the returned credit total is the
exact unrounded sum. -/
theorem rounding_only_at_output (nim : String) (r0 : KrsRow) (rest : List KrsRow)
    (hall : ∀ r ∈ r0 :: rest, (r.nilai).isSome) :
    calculate_ips nim (DbResult.ok (r0 :: rest)) =
      HttpResponse.ok
        { mahasiswa := { nim := r0.nim, nama := r0.nama, jurusan := r0.jurusan },
          total_sks_diambil := sumSks (r0 :: rest),
          total_bobot_sks := pyRound2 (sumBobot (r0 :: rest)),
          ips := pyRound2 (rawIps (r0 :: rest)) } :=
  calculate_ips_ok_spec nim r0 rest hall

/-- Witness for C6: the single-row case (B,3) returns the rounding of the
exact sums. -/
theorem rounding_only_at_output_witness :
    calculate_ips "22222" (DbResult.ok [⟨"22222", "Cici", "Kimia", some "B", 3⟩]) =
      HttpResponse.ok
        { mahasiswa := { nim := "22222", nama := "Cici", jurusan := "Kimia" },
          total_sks_diambil := sumSks [⟨"22222", "Cici", "Kimia", some "B", 3⟩],
          total_bobot_sks := pyRound2 (sumBobot [⟨"22222", "Cici", "Kimia", some "B", 3⟩]),
          ips := pyRound2 (rawIps [⟨"22222", "Cici", "Kimia", some "B", 3⟩]) } :=
  rounding_only_at_output "22222" ⟨"22222", "Cici", "Kimia", some "B", 3⟩ [] (by decide)

/-- C7: an identifier shorter than 5 characters is rejected with a 422
validation error, and the response does not depend on the database at
all — no query is issued. -/
theorem short_nim_rejected_no_query (nim : String) (h : nim.length < 5)
    (db db2 : String → DbResult (List KrsRow)) :
    ips_endpoint nim db = HttpResponse.httpError 422 minLengthMsg ∧
    ips_endpoint nim db = ips_endpoint nim db2 := by
  unfold ips_endpoint
  rw [if_pos h, if_pos h]
  exact ⟨rfl, rfl⟩

/-- Witness for C7: identifier "123" is rejected identically whether the
store would answer or fail. -/
theorem short_nim_rejected_no_query_witness :
    ips_endpoint "123" (fun _ => DbResult.ok []) = HttpResponse.httpError 422 minLengthMsg ∧
    ips_endpoint "123" (fun _ => DbResult.ok []) =
      ips_endpoint "123" (fun _ => DbResult.err "connection refused") :=
  short_nim_rejected_no_query "123" (by decide) _ _

/-- C8: the student listing returns every fetched row unchanged and in
store order (each with exactly the four fields of `MahasiswaRow`), the
empty list for an empty table, and a 500 error carrying the message on a
store error. -/
theorem list_students_contract (rows : List MahasiswaRow) (e : String) :
    get_mahasiswas (DbResult.ok rows) = HttpResponse.ok rows ∧
    get_mahasiswas (DbResult.ok ([] : List MahasiswaRow)) = HttpResponse.ok ([] : List MahasiswaRow) ∧
    get_mahasiswas (DbResult.err e) = HttpResponse.httpError 500 e := by
  refine ⟨?_, rfl, rfl⟩
  simp only [get_mahasiswas]
  congr 1
  have hid : (fun row : MahasiswaRow =>
      ({ nim := row.nim, nama := row.nama, jurusan := row.jurusan,
         angkatan := row.angkatan } : MahasiswaRow)) = fun row => row :=
    funext fun r => rfl
  rw [hid]
  exact List.map_id rows

/-- C9: with all credits non-negative and all grades present, the GPA
lies in [0, 4] both unrounded (`rawIps`) and as returned (after
`pyRound2`). -/
theorem gpa_in_unit_interval (nim : String) (r0 : KrsRow) (rest : List KrsRow)
    (hall : ∀ r ∈ r0 :: rest, (r.nilai).isSome)
    (hsks : ∀ r ∈ r0 :: rest, 0 ≤ r.sks)
    (resp : IpsOk)
    (hout : calculate_ips nim (DbResult.ok (r0 :: rest)) = HttpResponse.ok resp) :
    0 ≤ rawIps (r0 :: rest) ∧ rawIps (r0 :: rest) ≤ 4 ∧ 0 ≤ resp.ips ∧ resp.ips ≤ 4 := by
  have hraw1 : 0 ≤ rawIps (r0 :: rest) := by
    unfold rawIps
    split_ifs with h
    · exact le_refl 0
    · have hS : (0 : ℚ) ≤ ((sumSks (r0 :: rest) : ℤ) : ℚ) := by
        exact_mod_cast sumSks_nonneg _ hsks
      exact div_nonneg (sumBobot_nonneg _ hsks) hS
  have hraw2 : rawIps (r0 :: rest) ≤ 4 := by
    unfold rawIps
    split_ifs with h
    · norm_num
    · have hS0 : 0 ≤ sumSks (r0 :: rest) := sumSks_nonneg _ hsks
      have hSpos : (0 : ℚ) < ((sumSks (r0 :: rest) : ℤ) : ℚ) := by
        have : 0 < sumSks (r0 :: rest) := lt_of_le_of_ne hS0 (Ne.symm h)
        exact_mod_cast this
      rw [div_le_iff₀ hSpos]
      have := sumBobot_le (r0 :: rest) hsks
      linarith
  have hresp : resp.ips = pyRound2 (rawIps (r0 :: rest)) := by
    rw [calculate_ips_ok_spec nim r0 rest hall] at hout
    simp only [HttpResponse.ok.injEq] at hout
    rw [← hout]
  refine ⟨hraw1, hraw2, ?_, ?_⟩
  · rw [hresp]; exact pyRound2_nonneg _ hraw1
  · rw [hresp]; exact pyRound2_le_four _ hraw2

/-- Witness for C9: the single-row case (A,3) has its GPA inside [0, 4]
before and after rounding. -/
theorem gpa_in_unit_interval_witness :
    0 ≤ rawIps [⟨"33333", "Dodi", "Mesin", some "A", 3⟩] ∧
    rawIps [⟨"33333", "Dodi", "Mesin", some "A", 3⟩] ≤ 4 ∧
    0 ≤ pyRound2 (rawIps [⟨"33333", "Dodi", "Mesin", some "A", 3⟩]) ∧
    pyRound2 (rawIps [⟨"33333", "Dodi", "Mesin", some "A", 3⟩]) ≤ 4 :=
  gpa_in_unit_interval "33333" ⟨"33333", "Dodi", "Mesin", some "A", 3⟩ [] (by decide) (by decide)
    { mahasiswa := { nim := "33333", nama := "Dodi", jurusan := "Mesin" },
      total_sks_diambil := sumSks [⟨"33333", "Dodi", "Mesin", some "A", 3⟩],
      total_bobot_sks := pyRound2 (sumBobot [⟨"33333", "Dodi", "Mesin", some "A", 3⟩]),
      ips := pyRound2 (rawIps [⟨"33333", "Dodi", "Mesin", some "A", 3⟩]) }
    (calculate_ips_ok_spec "33333" ⟨"33333", "Dodi", "Mesin", some "A", 3⟩ [] (by decide))

/-- C10: the weight lookup is total on strings — for every input string
it returns a value, and that value is one of the eight table weights. -/
theorem grade_weight_total_on_strings (s : String) :
    convert_grade_to_weight s ∈ ([4.0, 3.5, 3.0, 2.75, 2.5, 2.0, 1.0, 0.0] : List ℚ) :=
  convert_mem_values s

end Acad
